import Mathlib

/-!
Verification of the device-enrollment coordination service
(`src/services/enrollmentService.js`) of the fitness-tracking repository.

The service talks to an ESP32 fingerprint scanner through a single-slot
Firestore "mailbox" document.  We embed the service shallowly:

* Firestore documents become Lean structures whose fields are `Option`-typed
  (a JavaScript object field that may be `undefined` is `none`).
* JavaScript truthiness tests on those fields are modelled explicitly
  (`none`, `some 0` and `some ""` are falsy).
* The asynchronous run of one `createMemberAndStartEnrollment` call is
  modelled as a fold over a list of `Event`s: the deliveries the `onSnapshot`
  listener receives, the listener-error callback, and the firing of the
  180 000 ms timer armed at command issuance.  The fold stops at the first
  event that settles the promise, mirroring the fact that every settling
  branch first cancels the timer and/or unsubscribes.
* Server-side effects are returned as explicit write logs
  (`commandWrites`, `memberWrites`) instead of performed.
-/

/-- JavaScript truthiness of a possibly-undefined string:
`undefined` and `""` are falsy. -/
def jsTruthyStr : Option String → Bool
  | none => false
  | some s => s != ""

/-- JavaScript truthiness of a possibly-undefined number: `undefined` and `0`
are falsy.  This models the tests `data.fingerprintId` and `memberData.Age`
in the source. -/
def jsTruthyInt : Option Int → Bool
  | none => false
  | some n => n != 0

/-- JavaScript `a || b` on a possibly-undefined string `a` with a string
default `b` (used for `data.message || "..."` and
`memberData.gymMemberId || ...`). -/
def jsOrStr (a : Option String) (b : String) : String :=
  match a with
  | none => b
  | some s => if s = "" then b else s

/-- Template-literal rendering of a possibly-undefined string
(JavaScript prints `undefined`). -/
def jsShowStr : Option String → String
  | none => "undefined"
  | some s => s

/-- The mailbox document `gyms/{gymId}/devices/{deviceId}/commands/enroll`.
All fields are optional: the document is free-form JSON.  `timestamp` stands
for the server timestamp in milliseconds (its exact value is irrelevant to
every claim). -/
structure CommandDoc where
  tempId : Option String := none
  status : Option String := none
  fingerprintId : Option Int := none
  message : Option String := none
  memberName : Option String := none
  timestamp : Option Int := none
  requestedBy : Option String := none
  cancelledBy : Option String := none
  deriving DecidableEq, Repr

/-- The member form data passed to `createMemberAndStartEnrollment`.
Only the fields the service reads are modelled; the rest ride along
unchanged in the source (object spread) and are irrelevant to the claims. -/
structure MemberData where
  Name : Option String := none
  Age : Option Int := none
  Phone_Number : Option String := none
  gymMemberId : Option String := none
  deriving DecidableEq, Repr

/-- The device presence document `gyms/{gymId}/devices/{deviceId}`.
`last_seen` is the heartbeat timestamp in milliseconds
(`deviceData.last_seen?.toDate()` in the source). -/
structure DeviceDoc where
  last_seen : Option Int := none
  status : Option String := none
  location : Option String := none
  version : Option String := none
  uptime_seconds : Option Int := none
  deriving DecidableEq, Repr

/-- Result of `checkDeviceStatus`.  The `deviceInfo` payload attached on the
available path carries informational fields only and is omitted. -/
structure DeviceStatus where
  available : Bool
  reason : String
  deriving DecidableEq, Repr

/-- JavaScript whitespace test used for `String.prototype.trim` and the
regex class `\s` (modelled by Lean's `Char.isWhitespace`; both cover the
ASCII whitespace the application can produce). -/
def isJsSpace (c : Char) : Bool := c.isWhitespace

/-- `String.prototype.trim`: strip whitespace from both ends. -/
def jsTrim (s : String) : String :=
  ⟨((s.data.dropWhile isJsSpace).reverse.dropWhile isJsSpace).reverse⟩

/-- One character of the permissive phone regex `/^[\d\s\-\+\(\)]+$/`. -/
def isPhoneChar (c : Char) : Bool :=
  c.isDigit || isJsSpace c || c == '-' || c == '+' || c == '(' || c == ')'

/-- `validateMemberData` (source lines 454–482).  Returns the message of the
first `Error` thrown, or `none` when validation passes.

Field-by-field correspondence with the source:
* `requiredFields = ["Name"]`; a field is missing when it is falsy or its
  trim is empty (`!memberData[field] || memberData[field].trim() === ""`).
* `memberData.Name.length < 2` / `> 50` on the untrimmed name.
* `memberData.Age && (memberData.Age < 1 || memberData.Age > 120)` —
  note that an `Age` of `0` is falsy, so the range test is skipped for it.
* `memberData.Phone_Number && !/^[\d\s\-\+\(\)]+$/.test(...)` — an empty
  phone string is falsy and skipped; for a non-empty one the regex holds
  exactly when every character is in the class. -/
def validateMemberData (md : MemberData) : Option String :=
  match md.Name with
  | none => some "Missing required fields: Name"
  | some name =>
    if name = "" ∨ jsTrim name = "" then some "Missing required fields: Name"
    else if name.length < 2 then some "Name must be at least 2 characters long"
    else if name.length > 50 then some "Name must be less than 50 characters long"
    else if jsTruthyInt md.Age ∧ ((md.Age.getD 0) < 1 ∨ (md.Age.getD 0) > 120) then
      some "Age must be between 1 and 120"
    else if jsTruthyStr md.Phone_Number ∧
        ¬ ((md.Phone_Number.getD "").data.all isPhoneChar) then
      some "Phone number contains invalid characters"
    else none

/-- `checkDeviceStatus` (source lines 234–286), as a pure function of the
presence document (or its absence) and the current time in milliseconds.

When `last_seen` is absent the source computes `timeDiff = now - undefined`,
which is `NaN`, and `NaN > 120000` is `false` — so the staleness branch is
skipped and only the `status !== "online"` check applies.  `Math.floor` on
the (positive) stale `timeDiff / 1000` coincides with integer division.
The `try/catch` wrapper around the Firestore read is not modelled: the model
takes the already-read document as input. -/
def checkDeviceStatus (device : Option DeviceDoc) (now : Int) : DeviceStatus :=
  match device with
  | none =>
    { available := false
      reason := "Device not found - check device ID and ensure ESP32 is registered" }
  | some d =>
    let stale : Bool :=
      match d.last_seen with
      | some t => decide (now - t > 120000)
      | none => false
    if stale then
      { available := false
        reason := s!"Device offline - last seen {(now - d.last_seen.getD 0) / 1000}s ago" }
    else if d.status ≠ some "online" then
      { available := false, reason := s!"Device status: {jsShowStr d.status}" }
    else
      { available := true, reason := "Device is online and ready" }

/-- `padStart(3, "0")` on a decimal string. -/
def padStartThreeZeros (s : String) : String :=
  if s.length ≥ 3 then s else ⟨List.replicate (3 - s.length) '0'⟩ ++ s

/-- `Date.now().toString().slice(-6)`: the last six characters. -/
def sliceLastSix (s : String) : String :=
  ⟨s.data.drop (s.data.length - 6)⟩

/-- `generateGymMemberId` (source lines 489–502).  The happy path counts the
existing members (`snapshot.size`) and returns `FN` + zero-padded count+1;
if the `getDocs` read throws (`getDocsFails`), the catch block falls back to
`FN` + the last six digits of `Date.now()`. -/
def generateGymMemberId (getDocsFails : Bool) (snapshotSize : Nat) (nowTs : Nat) : String :=
  if getDocsFails then "FN" ++ sliceLastSix (Nat.repr nowTs)
  else "FN" ++ padStartThreeZeros (Nat.repr (snapshotSize + 1))

/-- The payload `waitForEnrollmentCompletion` resolves with (source lines
190–197).  The source converts `data.fingerprintId` to a string with
`.toString()`; we keep the integer and apply `Int.repr` where the string
form is consumed (`parseInt` round-trips it).  The informational
`enrollmentTime`/`deviceId` fields are pass-throughs and omitted. -/
structure EnrollResult where
  fingerprintId : Int
  memberName : Option String := none
  message : String := ""
  deriving DecidableEq, Repr

/-- How one run of `waitForEnrollmentCompletion` settles. -/
inductive WaitOutcome where
  /-- `resolve({success: true, ...})` on `completed` with truthy `fingerprintId`. -/
  | resolved (r : EnrollResult)
  /-- `reject(new Error(data.message || "Enrollment failed - unknown error"))`. -/
  | hwFailed (msg : String)
  /-- `reject(new Error("Enrollment was cancelled"))`. -/
  | cancelledByUser
  /-- the 180 s timer fired: `reject(new Error("Enrollment timeout - ..."))`. -/
  | timedOut
  /-- listener error callback: `reject(new Error("Firebase connection error: ..."))`. -/
  | connectionError (msg : String)
  deriving DecidableEq, Repr

/-- Which settle paths call `unsubscribe()`.  Every snapshot-driven settle and
the timeout handler do; the listener-error callback (source lines 217–221)
does not. -/
def subscriptionClosed : WaitOutcome → Bool
  | .connectionError _ => false
  | _ => true

/-- Which settle paths call `clearTimeout(timeout)`.  All snapshot-driven
settles and the error callback do; on `timedOut` the timer has already
fired. -/
def timeoutCleared : WaitOutcome → Bool
  | .timedOut => false
  | _ => true

/-- The fixed timeout armed by `waitForEnrollmentCompletion`
(`setTimeout(..., 180000)`, source line 168). -/
def enrollmentTimeoutMs : Nat := 180000

/-- The reachability window of `checkDeviceStatus`
(`timeDiff > 120000`, source line 253). -/
def reachabilityWindowMs : Nat := 120000

/-- The body of the `onSnapshot` success callback for an existing document
(source lines 174–215), for the attempt started with correlation id
`tempId`.  `none` means the callback returns without settling the promise
(the attempt keeps waiting).

Branch order follows the source exactly: the `tempId` match guards all
status checks; then `completed && fingerprintId` (truthy), `failed`,
`in_progress`, `cancelled`; any other status falls through silently —
in particular `completed` with a falsy `fingerprintId` is ignored. -/
def handleSnapshot (tempId : String) (d : CommandDoc) : Option WaitOutcome :=
  if d.tempId = some tempId then
    if d.status = some "completed" ∧ jsTruthyInt d.fingerprintId then
      some (.resolved
        { fingerprintId := d.fingerprintId.getD 0
          memberName := d.memberName
          message := jsOrStr d.message "Enrollment completed successfully" })
    else if d.status = some "failed" then
      some (.hwFailed (jsOrStr d.message "Enrollment failed - unknown error"))
    else if d.status = some "in_progress" then none
    else if d.status = some "cancelled" then some .cancelledByUser
    else none
  else none

/-- One occurrence delivered to the waiting attempt. -/
inductive Event where
  /-- `onSnapshot` success callback; `none` = `doc.exists()` is false. -/
  | snapshot (d : Option CommandDoc)
  /-- `onSnapshot` error callback with the underlying `error.message`. -/
  | listenerError (msg : String)
  /-- the 180 000 ms timer armed at command issuance fires. -/
  | timeoutFire
  deriving DecidableEq, Repr

/-- Effect of one event on the pending promise: `none` = still pending. -/
def stepEvent (tempId : String) : Event → Option WaitOutcome
  | .snapshot none => none
  | .snapshot (some d) => handleSnapshot tempId d
  | .listenerError m => some (.connectionError s!"Firebase connection error: {m}")
  | .timeoutFire => some .timedOut

/-- `waitForEnrollmentCompletion` (source lines 148–224) over the events the
run delivers, in delivery order.  Returns the settle outcome (`none` if the
event list is exhausted with the promise still pending) together with the
events the attempt actually observed: everything up to and including the
settling event — every settling branch cancels the timer and/or
unsubscribes, so later events are not seen. -/
def runWait (tempId : String) : List Event → Option WaitOutcome × List Event
  | [] => (none, [])
  | e :: rest =>
    match stepEvent tempId e with
    | some o => (some o, [e])
    | none =>
      let p := runWait tempId rest
      (p.1, e :: p.2)

/-- The enrollment command written at source lines 75–83
(`setDoc` replaces the whole mailbox document). -/
def mkEnrollmentCommand (tempId : String) (md : MemberData) (now : Int) : CommandDoc :=
  { status := some "pending"
    tempId := some tempId
    memberName := md.Name
    timestamp := some now
    requestedBy := some "react_app" }

/-- `cancelEnrollment` (source lines 385–413): `updateDoc` merges
`status`, `timestamp` and `cancelledBy` into the existing mailbox document,
leaving every other field — in particular `tempId` — unchanged. -/
def cancelEnrollment (now : Int) (d : CommandDoc) : CommandDoc :=
  { d with
    status := some "cancelled"
    timestamp := some now
    cancelledBy := some "react_app" }

/-- The distinct failure exits of `createMemberAndStartEnrollment`.  The
source throws plain `Error`s and classifies them by message in
`getErrorType`; each constructor below corresponds to one distinct throw
site, which is the error "kind" the spec's taxonomy names. -/
inductive EnrollError where
  /-- thrown by `validateMemberData`. -/
  | validation (msg : String)
  /-- `throw new Error("Device ... is not available: " + reason)`. -/
  | deviceUnavailable (reason : String)
  /-- the wait rejected with the 180 s timeout error. -/
  | timeout
  /-- the wait rejected with the device-reported failure message. -/
  | hardware (msg : String)
  /-- the wait rejected with "Enrollment was cancelled". -/
  | userCancelled
  /-- the wait rejected with a Firebase listener error. -/
  | connection (msg : String)
  deriving DecidableEq, Repr

/-- The member document written on the success path (source lines 98–107).
`createdAt`/`updatedAt`/`enrollmentDate` are opaque server timestamps and
omitted; the object-spread fields of `enhancedMemberData` are carried. -/
structure MemberDoc where
  Name : Option String := none
  Age : Option Int := none
  Phone_Number : Option String := none
  gymMemberId : String
  fingerprintId : Int
  id : String
  enrollmentStatus : String := "completed"
  enrolledBy : String
  deriving DecidableEq, Repr

/-- The resolved value of `createMemberAndStartEnrollment` (source lines
115–120): spread of the wait result plus `memberId` and `gymMemberId`.
`fingerprintId` is the device-assigned integer (a decimal string in the
source); `memberId` is its string form.  The human-readable `message` is
omitted. -/
structure SuccessResult where
  fingerprintId : Int
  memberId : String
  gymMemberId : String
  memberName : Option String := none
  deriving DecidableEq, Repr

/-- A settled result of `createMemberAndStartEnrollment`. -/
inductive Settled where
  | ok (r : SuccessResult)
  | err (e : EnrollError)
  deriving DecidableEq, Repr

/-- Everything one call of `createMemberAndStartEnrollment` depends on:
its explicit arguments, the state of the store it reads, the fresh
correlation id it generates (`temp_${Date.now()}_${random}`), whether the
`getDocs` inside `generateGymMemberId` throws, and the events the wait
observes. -/
structure RunInput where
  memberData : MemberData
  deviceId : String := "fingerprint_scanner_1"
  device : Option DeviceDoc := none
  nowMs : Int := 0
  tempId : String := "temp_0_x"
  genIdFails : Bool := false
  memberSnapshotSize : Nat := 0
  fallbackTs : Nat := 0
  events : List Event := []
  deriving Repr

/-- Observable outcome of one call: the settled value (`none` = the promise
never settles within the given events), the writes to the mailbox document,
the writes to the `members` collection (key, document), and the events the
attempt's subscription observed. -/
structure RunOutput where
  result : Option Settled
  commandWrites : List CommandDoc
  memberWrites : List (String × MemberDoc)
  observed : List Event
  deriving Repr

/-- Steps 1–3 after both gates have passed (source lines 53–124): the
`gymMemberId` choice, the command write, the wait, and the handling of its
settle `w.1` with the observed events `w.2`.  Factored out of
`createMemberAndStartEnrollment` so the wait outcome can be case-analysed. -/
def finishRun (i : RunInput) (w : Option WaitOutcome × List Event) : RunOutput :=
  let gymMemberId := jsOrStr i.memberData.gymMemberId
    (generateGymMemberId i.genIdFails i.memberSnapshotSize i.fallbackTs)
  let cmd := mkEnrollmentCommand i.tempId i.memberData i.nowMs
  match w.1 with
  | none =>
    { result := none, commandWrites := [cmd], memberWrites := [], observed := w.2 }
  | some (.resolved r) =>
    let key := Int.repr r.fingerprintId
    let memberDoc : MemberDoc :=
      { Name := i.memberData.Name
        Age := i.memberData.Age
        Phone_Number := i.memberData.Phone_Number
        gymMemberId := gymMemberId
        fingerprintId := r.fingerprintId
        id := key
        enrolledBy := i.deviceId }
    { result := some (.ok
        { fingerprintId := r.fingerprintId
          memberId := key
          gymMemberId := gymMemberId
          memberName := r.memberName })
      commandWrites := [cmd]
      memberWrites := [(key, memberDoc)]
      observed := w.2 }
  | some (.hwFailed m) =>
    { result := some (.err (.hardware m))
      commandWrites := [cmd], memberWrites := [], observed := w.2 }
  | some .cancelledByUser =>
    { result := some (.err .userCancelled)
      commandWrites := [cmd], memberWrites := [], observed := w.2 }
  | some .timedOut =>
    { result := some (.err .timeout)
      commandWrites := [cmd], memberWrites := [], observed := w.2 }
  | some (.connectionError m) =>
    { result := some (.err (.connection m))
      commandWrites := [cmd], memberWrites := [], observed := w.2 }

/-- `createMemberAndStartEnrollment` (source lines 31–139).

Control flow, in source order: `validateMemberData` throws first;
`checkDeviceStatus` gates the attempt (`if (!deviceStatus.available) throw`);
`gymMemberId` is the caller's when truthy, else generated; the enrollment
command is written; the wait runs; on `resolved` the guard
`result.success && result.fingerprintId` always passes (the resolve path
only fires with a truthy id, whose decimal string is non-empty), the member
document is written keyed by `result.fingerprintId.toString()` with
`parseInt(result.fingerprintId)` stored as a number — both rendered through
`Int.repr` here — and the call resolves; every wait rejection is rethrown
(the catch block re-wraps it with a message-derived `type`, preserving the
kind). -/
def createMemberAndStartEnrollment (i : RunInput) : RunOutput :=
  match validateMemberData i.memberData with
  | some msg =>
    { result := some (.err (.validation msg))
      commandWrites := [], memberWrites := [], observed := [] }
  | none =>
    if (checkDeviceStatus i.device i.nowMs).available = false then
      { result := some (.err (.deviceUnavailable (checkDeviceStatus i.device i.nowMs).reason))
        commandWrites := [], memberWrites := [], observed := [] }
    else
      finishRun i (runWait i.tempId i.events)

/-! ### Inversion lemmas for the snapshot handler -/

/-- A snapshot can settle the promise only when its `tempId` matches the
attempt's own correlation id. -/
theorem handleSnapshot_tempId_eq {t : String} {d : CommandDoc} {o : WaitOutcome}
    (h : handleSnapshot t d = some o) : d.tempId = some t := by
  by_cases hm : d.tempId = some t
  · exact hm
  · simp [handleSnapshot, hm] at h

/-- A `resolved` settle comes only from a matching `completed` update whose
`fingerprintId` is truthy. -/
theorem handleSnapshot_resolved_inv {t : String} {d : CommandDoc} {r : EnrollResult}
    (h : handleSnapshot t d = some (.resolved r)) :
    d.tempId = some t ∧ d.status = some "completed" ∧
      jsTruthyInt d.fingerprintId = true := by
  have ht := handleSnapshot_tempId_eq h
  refine ⟨ht, ?_⟩
  unfold handleSnapshot at h
  rw [if_pos ht] at h
  split at h
  · next hc => exact hc
  · split at h
    · simp at h
    · split at h
      · exact absurd h (by simp)
      · split at h
        · simp at h
        · simp at h

/-- Computation of the handler on a matching truthy `completed` update. -/
theorem handleSnapshot_of_completed {t : String} {d : CommandDoc}
    (h1 : d.tempId = some t) (h2 : d.status = some "completed")
    (h3 : jsTruthyInt d.fingerprintId = true) :
    handleSnapshot t d = some (.resolved
      { fingerprintId := d.fingerprintId.getD 0
        memberName := d.memberName
        message := jsOrStr d.message "Enrollment completed successfully" }) := by
  unfold handleSnapshot
  rw [if_pos h1, if_pos ⟨h2, h3⟩]

/-! ### Behaviour of the event fold -/

/-- If an event the attempt observed settles the promise, it is the settle
the whole wait produces (the fold stops at the first settling event, so a
settling event can be observed only as the last one). -/
theorem runWait_observed_settle {t : String} {es : List Event} {e : Event} {o : WaitOutcome}
    (he : e ∈ (runWait t es).2) (hs : stepEvent t e = some o) :
    (runWait t es).1 = some o := by
  induction es with
  | nil => simp [runWait] at he
  | cons x rest ih =>
    cases hx : stepEvent t x with
    | some o' =>
      simp only [runWait, hx] at he ⊢
      simp only [List.mem_singleton] at he
      subst he
      rw [hx] at hs
      exact hs
    | none =>
      simp only [runWait, hx] at he ⊢
      rcases List.mem_cons.mp he with rfl | he'
      · rw [hx] at hs; cases hs
      · exact ih he'

/-- A wait that resolves did observe a matching `completed` update with a
truthy `fingerprintId`. -/
theorem runWait_resolved_src {t : String} {es : List Event} {r : EnrollResult}
    (h : (runWait t es).1 = some (.resolved r)) :
    ∃ d, Event.snapshot (some d) ∈ (runWait t es).2 ∧ d.tempId = some t ∧
      d.status = some "completed" ∧ jsTruthyInt d.fingerprintId = true := by
  induction es with
  | nil => simp [runWait] at h
  | cons x rest ih =>
    cases hx : stepEvent t x with
    | none =>
      simp only [runWait, hx] at h ⊢
      obtain ⟨d, hmem, hd⟩ := ih h
      exact ⟨d, List.mem_cons_of_mem x hmem, hd⟩
    | some o =>
      simp only [runWait, hx, Option.some.injEq] at h ⊢
      subst h
      cases x with
      | snapshot od =>
        cases od with
        | none => simp [stepEvent] at hx
        | some d =>
          have hd := handleSnapshot_resolved_inv (t := t) (d := d) (by simpa [stepEvent] using hx)
          exact ⟨d, List.mem_singleton.mpr rfl, hd⟩
      | listenerError m => simp [stepEvent] at hx
      | timeoutFire => simp [stepEvent] at hx

/-- A wait settles only on its own timeout, on a listener error, or on a
snapshot whose `tempId` matches its own correlation id. -/
theorem runWait_settle_cases {t : String} {es : List Event} {o : WaitOutcome}
    (h : (runWait t es).1 = some o) :
    o = .timedOut ∨ (∃ m, o = .connectionError m) ∨
      ∃ d, Event.snapshot (some d) ∈ es ∧ d.tempId = some t ∧
        handleSnapshot t d = some o := by
  induction es with
  | nil => simp [runWait] at h
  | cons x rest ih =>
    cases hx : stepEvent t x with
    | none =>
      simp only [runWait, hx] at h
      rcases ih h with h' | h' | ⟨d, hmem, hd⟩
      · exact Or.inl h'
      · exact Or.inr (Or.inl h')
      · exact Or.inr (Or.inr ⟨d, List.mem_cons_of_mem x hmem, hd⟩)
    | some o' =>
      simp only [runWait, hx, Option.some.injEq] at h
      subst h
      cases x with
      | snapshot od =>
        cases od with
        | none => simp [stepEvent] at hx
        | some d =>
          have hx' : handleSnapshot t d = some o' := by simpa [stepEvent] using hx
          exact Or.inr (Or.inr ⟨d, List.mem_cons_self _ _,
            handleSnapshot_tempId_eq hx', hx'⟩)
      | listenerError m =>
        simp only [stepEvent, Option.some.injEq] at hx
        exact Or.inr (Or.inl ⟨_, hx.symm⟩)
      | timeoutFire =>
        simp only [stepEvent, Option.some.injEq] at hx
        exact Or.inl hx.symm

/-- Events the handler ignores are observed and skipped: the fold over
`pre ++ es` continues into `es`. -/
theorem runWait_append_pending {t : String} (pre es : List Event)
    (hp : ∀ e ∈ pre, stepEvent t e = none) :
    runWait t (pre ++ es) = ((runWait t es).1, pre ++ (runWait t es).2) := by
  induction pre with
  | nil => simp
  | cons x xs ih =>
    have hx : stepEvent t x = none := hp x (List.mem_cons_self _ _)
    have ih' := ih (fun e he => hp e (List.mem_cons_of_mem x he))
    simp [runWait, hx, ih']

/-! ### Pipeline unfolding lemmas -/

/-- Failing validation short-circuits the whole call. -/
theorem create_validation_fails {i : RunInput} {msg : String}
    (hv : validateMemberData i.memberData = some msg) :
    createMemberAndStartEnrollment i =
      { result := some (.err (.validation msg))
        commandWrites := [], memberWrites := [], observed := [] } := by
  unfold createMemberAndStartEnrollment
  rw [hv]

/-- A failing availability check short-circuits before any write. -/
theorem create_unavailable {i : RunInput}
    (hv : validateMemberData i.memberData = none)
    (ha : (checkDeviceStatus i.device i.nowMs).available = false) :
    createMemberAndStartEnrollment i =
      { result := some (.err (.deviceUnavailable (checkDeviceStatus i.device i.nowMs).reason))
        commandWrites := [], memberWrites := [], observed := [] } := by
  unfold createMemberAndStartEnrollment
  rw [hv, if_pos ha]

/-- Once both gates pass, the call is the command write plus the wait. -/
theorem create_gates {i : RunInput}
    (hv : validateMemberData i.memberData = none)
    (ha : (checkDeviceStatus i.device i.nowMs).available = true) :
    createMemberAndStartEnrollment i = finishRun i (runWait i.tempId i.events) := by
  unfold createMemberAndStartEnrollment
  rw [hv, if_neg (by simp [ha])]

/-- The command write happens in every post-gate branch, exactly once. -/
theorem finishRun_commandWrites (i : RunInput) (w : Option WaitOutcome × List Event) :
    (finishRun i w).commandWrites = [mkEnrollmentCommand i.tempId i.memberData i.nowMs] := by
  rcases w with ⟨o, obs⟩
  match o with
  | none => rfl
  | some (.resolved r) => rfl
  | some (.hwFailed m) => rfl
  | some .cancelledByUser => rfl
  | some .timedOut => rfl
  | some (.connectionError m) => rfl

/-- The observed-events log of a post-gate run is the wait's. -/
theorem finishRun_observed (i : RunInput) (w : Option WaitOutcome × List Event) :
    (finishRun i w).observed = w.2 := by
  rcases w with ⟨o, obs⟩
  match o with
  | none => rfl
  | some (.resolved r) => rfl
  | some (.hwFailed m) => rfl
  | some .cancelledByUser => rfl
  | some .timedOut => rfl
  | some (.connectionError m) => rfl

/-- Only the resolved branch writes a member document. -/
theorem finishRun_memberWrites_of_not_resolved (i : RunInput)
    (w : Option WaitOutcome × List Event)
    (h : ∀ r, w.1 ≠ some (.resolved r)) :
    (finishRun i w).memberWrites = [] := by
  rcases w with ⟨o, obs⟩
  match o with
  | none => rfl
  | some (.resolved r) => exact absurd rfl (h r)
  | some (.hwFailed m) => rfl
  | some .cancelledByUser => rfl
  | some .timedOut => rfl
  | some (.connectionError m) => rfl

/-! ### Decimal strings never start with the letter F -/

theorem digitChar_isDigit {m : Nat} (h : m < 10) : (Nat.digitChar m).isDigit = true := by
  interval_cases m <;> decide

theorem toDigitsCore_all_digits :
    ∀ (fuel n : Nat) (ds : List Char), (∀ c ∈ ds, c.isDigit = true) →
      ∀ c ∈ Nat.toDigitsCore 10 fuel n ds, c.isDigit = true := by
  intro fuel
  induction fuel with
  | zero =>
    intro n ds hds c hc
    exact hds c (by simpa [Nat.toDigitsCore] using hc)
  | succ f ih =>
    intro n ds hds c hc
    have hd : (Nat.digitChar (n % 10)).isDigit = true :=
      digitChar_isDigit (Nat.mod_lt _ (by norm_num))
    have hds' : ∀ c ∈ Nat.digitChar (n % 10) :: ds, c.isDigit = true := by
      intro c' hc'
      rcases List.mem_cons.mp hc' with rfl | h'
      · exact hd
      · exact hds _ h'
    simp only [Nat.toDigitsCore] at hc
    split at hc
    · exact hds' c hc
    · exact ih _ _ hds' c hc

theorem toDigitsCore_ne_nil :
    ∀ (fuel n : Nat) (ds : List Char), ds ≠ [] → Nat.toDigitsCore 10 fuel n ds ≠ [] := by
  intro fuel
  induction fuel with
  | zero => intro n ds h; simpa [Nat.toDigitsCore] using h
  | succ f ih =>
    intro n ds h
    simp only [Nat.toDigitsCore]
    split
    · simp
    · exact ih _ _ (by simp)

theorem toDigits_ne_nil (n : Nat) : Nat.toDigits 10 n ≠ [] := by
  unfold Nat.toDigits
  simp only [Nat.toDigitsCore]
  split
  · simp
  · exact toDigitsCore_ne_nil _ _ _ (by simp)

/-- The decimal rendering of a natural number is a non-empty digit string. -/
theorem natRepr_data (n : Nat) :
    (Nat.repr n).data ≠ [] ∧ ∀ c ∈ (Nat.repr n).data, c.isDigit = true := by
  have h1 : (Nat.repr n).data = Nat.toDigits 10 n := rfl
  rw [h1]
  exact ⟨toDigits_ne_nil n, toDigitsCore_all_digits _ _ _ (by simp)⟩

/-- The decimal rendering of an integer starts with a digit or a minus. -/
theorem intRepr_head (fp : Int) :
    ∃ c cs, (Int.repr fp).data = c :: cs ∧ (c.isDigit = true ∨ c = '-') := by
  cases fp with
  | ofNat m =>
    obtain ⟨hne, hall⟩ := natRepr_data m
    rcases hdata : (Nat.repr m).data with _ | ⟨c, cs⟩
    · exact absurd hdata hne
    · exact ⟨c, cs, hdata, Or.inl (hall c (by rw [hdata]; exact List.mem_cons_self _ _))⟩
  | negSucc m =>
    refine ⟨'-', (Nat.repr (m + 1)).data, ?_, Or.inr rfl⟩
    show (("-" ++ Nat.repr (Nat.succ m)).data) = '-' :: (Nat.repr (m + 1)).data
    rw [String.data_append]
    rfl

/-- Every id `generateGymMemberId` can produce starts with `FN`. -/
theorem generatedId_head (gf : Bool) (sz ts : Nat) :
    ∃ rest, (generateGymMemberId gf sz ts).data = 'F' :: 'N' :: rest := by
  unfold generateGymMemberId
  split
  · exact ⟨(sliceLastSix (Nat.repr ts)).data, by rw [String.data_append]; rfl⟩
  · exact ⟨(padStartThreeZeros (Nat.repr (sz + 1))).data, by rw [String.data_append]; rfl⟩

/-- The `resolved` branch of a post-gate run, fully evaluated. -/
theorem finishRun_resolved (i : RunInput) (w : Option WaitOutcome × List Event)
    (r : EnrollResult) (h : w.1 = some (.resolved r)) :
    finishRun i w =
      { result := some (.ok
          { fingerprintId := r.fingerprintId
            memberId := Int.repr r.fingerprintId
            gymMemberId := jsOrStr i.memberData.gymMemberId
              (generateGymMemberId i.genIdFails i.memberSnapshotSize i.fallbackTs)
            memberName := r.memberName })
        commandWrites := [mkEnrollmentCommand i.tempId i.memberData i.nowMs]
        memberWrites := [(Int.repr r.fingerprintId,
          { Name := i.memberData.Name
            Age := i.memberData.Age
            Phone_Number := i.memberData.Phone_Number
            gymMemberId := jsOrStr i.memberData.gymMemberId
              (generateGymMemberId i.genIdFails i.memberSnapshotSize i.fallbackTs)
            fingerprintId := r.fingerprintId
            id := Int.repr r.fingerprintId
            enrolledBy := i.deviceId })]
        observed := w.2 } := by
  rcases w with ⟨o, obs⟩
  simp only at h
  subst h
  rfl

/-! ### The claims -/

/-- Claim C1 (amended: the source requires a JavaScript-truthy
`fingerprintId`, i.e. non-null AND non-zero, not merely non-null).
A member document is persisted by `createMemberAndStartEnrollment` if and
only if the attempt's subscription observed an update with its own
correlation id, status `completed`, and a truthy `fingerprintId`; every
other outcome (validation failure, device unavailable, hardware failure,
cancellation, timeout, listener error, or no settle at all) leaves the
members collection unchanged. -/
theorem memberWrites_iff_truthy_completed_observed (i : RunInput) :
    (createMemberAndStartEnrollment i).memberWrites ≠ [] ↔
      ∃ d, Event.snapshot (some d) ∈ (createMemberAndStartEnrollment i).observed ∧
        d.tempId = some i.tempId ∧ d.status = some "completed" ∧
        jsTruthyInt d.fingerprintId = true := by
  cases hv : validateMemberData i.memberData with
  | some msg => rw [create_validation_fails hv]; simp
  | none =>
    cases hav : (checkDeviceStatus i.device i.nowMs).available with
    | false => rw [create_unavailable hv hav]; simp
    | true =>
      rw [create_gates hv hav, finishRun_observed]
      constructor
      · intro hne
        by_cases hres : ∃ r, (runWait i.tempId i.events).1 = some (.resolved r)
        · obtain ⟨r, hw⟩ := hres
          exact runWait_resolved_src hw
        · push_neg at hres
          exact absurd (finishRun_memberWrites_of_not_resolved i _ hres) hne
      · rintro ⟨d, hmem, h1, h2, h3⟩
        have hw := runWait_observed_settle hmem
          (show stepEvent i.tempId (Event.snapshot (some d)) = _ from
            handleSnapshot_of_completed h1 h2 h3)
        rw [finishRun_resolved i _ _ hw]
        simp

/-- A matching `completed` update carrying `fingerprintId = 0`:
non-null, but falsy in JavaScript. -/
def docZeroFingerprint : CommandDoc :=
  { tempId := some "temp_0_x", status := some "completed", fingerprintId := some 0 }

/-- A run that observes `docZeroFingerprint` and then times out. -/
def runZeroFpThenTimeout : RunInput :=
  { memberData := { Name := some "Alice" }
    device := some { status := some "online", last_seen := some 0 }
    events := [.snapshot (some docZeroFingerprint), .timeoutFire] }

/-- Claim C1, counterexample to the claim as stated: the update
`{tempId: "temp_0_x", status: "completed", fingerprintId: 0}` matches the
attempt's correlation id, has status `completed` and a NON-NULL
`fingerprintId`, and is observed by the attempt's subscription — yet no
member document is written (the run times out), because `0` is falsy in
`data.status === "completed" && data.fingerprintId`. -/
theorem zero_fingerprint_observed_but_no_member_written :
    docZeroFingerprint.tempId = some runZeroFpThenTimeout.tempId ∧
    docZeroFingerprint.status = some "completed" ∧
    docZeroFingerprint.fingerprintId ≠ none ∧
    Event.snapshot (some docZeroFingerprint) ∈
      (createMemberAndStartEnrollment runZeroFpThenTimeout).observed ∧
    (createMemberAndStartEnrollment runZeroFpThenTimeout).memberWrites = [] ∧
    (createMemberAndStartEnrollment runZeroFpThenTimeout).result =
      some (.err .timeout) := by
  decide

/-- Claim C2 (confirmed): a delivered mailbox update whose correlation id
differs from the attempt's own never settles the attempt's promise, and a
wait settles only on a matching update, on its own timeout, or on a
listener error. -/
theorem wait_settles_only_on_own_update_timeout_or_error (t : String) :
    (∀ d : CommandDoc, d.tempId ≠ some t → handleSnapshot t d = none) ∧
    (∀ (es : List Event) (o : WaitOutcome), (runWait t es).1 = some o →
      o = .timedOut ∨ (∃ m, o = .connectionError m) ∨
        ∃ d, Event.snapshot (some d) ∈ es ∧ d.tempId = some t ∧
          handleSnapshot t d = some o) := by
  constructor
  · intro d hd
    simp [handleSnapshot, hd]
  · intro es o h
    exact runWait_settle_cases h

/-- Witness for C2: a foreign update (correlation id `temp_1_y` against an
attempt started with `temp_0_x`) is ignored, and a wait that only receives
the timer settles by timeout. -/
theorem wait_settles_only_on_own_update_timeout_or_error_witness :
    handleSnapshot "temp_0_x"
      { tempId := some "temp_1_y", status := some "completed",
        fingerprintId := some 9 } = none ∧
    (WaitOutcome.timedOut = .timedOut ∨
      (∃ m, WaitOutcome.timedOut = .connectionError m) ∨
      ∃ d, Event.snapshot (some d) ∈ [Event.timeoutFire] ∧
        d.tempId = some "temp_0_x" ∧
        handleSnapshot "temp_0_x" d = some .timedOut) :=
  ⟨(wait_settles_only_on_own_update_timeout_or_error "temp_0_x").1 _ (by decide),
   (wait_settles_only_on_own_update_timeout_or_error "temp_0_x").2
     [Event.timeoutFire] .timedOut (by decide)⟩

/-- A matching `completed` update with no `fingerprintId` at all. -/
def docCompletedNoFp : CommandDoc :=
  { tempId := some "temp_0_x", status := some "completed" }

/-- A run that observes `docCompletedNoFp` and then times out. -/
def runCompletedNoFp : RunInput :=
  { memberData := { Name := some "Alice" }
    device := some { status := some "online", last_seen := some 0 }
    events := [.snapshot (some docCompletedNoFp), .timeoutFire] }

/-- Claim C3, counterexample to the claim as stated: on a matching update
with status `completed` and no `fingerprintId`, the call does NOT reject
with a distinct protocol-violation error — the update falls through every
status branch of the listener, and the attempt eventually rejects with the
generic timeout error instead. -/
theorem completed_without_fingerprint_rejects_timeout_not_protocol :
    docCompletedNoFp.tempId = some runCompletedNoFp.tempId ∧
    docCompletedNoFp.status = some "completed" ∧
    docCompletedNoFp.fingerprintId = none ∧
    (createMemberAndStartEnrollment runCompletedNoFp).result =
      some (.err .timeout) ∧
    (createMemberAndStartEnrollment runCompletedNoFp).memberWrites = [] := by
  decide

/-- Claim C3 (amended): a matching update with status `completed` and no
`fingerprintId` is silently ignored by the listener (there is no
`DeviceProtocolError` path in the source); the attempt keeps waiting, and
if nothing else arrives it rejects with the 180 s timeout error. -/
theorem completed_without_fingerprint_is_ignored (t : String) (d : CommandDoc)
    (h1 : d.tempId = some t) (h2 : d.status = some "completed")
    (h3 : d.fingerprintId = none) :
    handleSnapshot t d = none ∧
    (runWait t [Event.snapshot (some d), Event.timeoutFire]).1 =
      some .timedOut := by
  have hh : handleSnapshot t d = none := by
    unfold handleSnapshot
    rw [if_pos h1, if_neg (by simp [h3, jsTruthyInt]), if_neg (by simp [h2]),
      if_neg (by simp [h2]), if_neg (by simp [h2])]
  refine ⟨hh, ?_⟩
  have hs : stepEvent t (Event.snapshot (some d)) = none := hh
  simp [runWait, hs, stepEvent, hh]

/-- Witness for C3 (amended) at the concrete update `docCompletedNoFp`. -/
theorem completed_without_fingerprint_is_ignored_witness :
    docCompletedNoFp.tempId = some "temp_0_x" ∧
    docCompletedNoFp.status = some "completed" ∧
    docCompletedNoFp.fingerprintId = none ∧
    (handleSnapshot "temp_0_x" docCompletedNoFp = none ∧
      (runWait "temp_0_x"
        [Event.snapshot (some docCompletedNoFp), Event.timeoutFire]).1 =
        some .timedOut) :=
  ⟨rfl, rfl, rfl,
    completed_without_fingerprint_is_ignored "temp_0_x" docCompletedNoFp
      rfl rfl rfl⟩

/-- Claim C4 (amended: a presence document with status `online` and NO
`last_seen` field passes the staleness gate, because `now - undefined` is
`NaN` and `NaN > 120000` is `false`; so "lastHeartbeat absent" is NOT one
of the unavailable cases, contrary to the claim as stated).
`checkDeviceStatus` reports unavailable exactly when the presence document
is missing, the heartbeat is present but older than 120 s, or the status is
not `online`; and whenever it reports unavailable, the call rejects with
the device-unavailable error and writes no mailbox document and no member
document. -/
theorem unavailable_device_rejects_without_write (i : RunInput) :
    ((checkDeviceStatus i.device i.nowMs).available = false ↔
      i.device = none ∨ ∃ dev, i.device = some dev ∧
        ((∃ hb, dev.last_seen = some hb ∧ i.nowMs - hb > 120000) ∨
          dev.status ≠ some "online")) ∧
    (validateMemberData i.memberData = none →
      (checkDeviceStatus i.device i.nowMs).available = false →
      (createMemberAndStartEnrollment i).result =
        some (.err (.deviceUnavailable
          (checkDeviceStatus i.device i.nowMs).reason)) ∧
      (createMemberAndStartEnrollment i).commandWrites = [] ∧
      (createMemberAndStartEnrollment i).memberWrites = [] ∧
      (createMemberAndStartEnrollment i).observed = []) := by
  constructor
  · cases hD : i.device with
    | none => simp [checkDeviceStatus]
    | some dev =>
      simp only [checkDeviceStatus, Option.some.injEq]
      cases hls : dev.last_seen with
      | none =>
        by_cases hst : dev.status = some "online" <;>
          simp [hls, hst]
      | some hb =>
        by_cases hstale : i.nowMs - hb > 120000
        · simp [hls, hstale]
        · by_cases hst : dev.status = some "online" <;>
            simp [hls, hstale, hst]
  · intro hv ha
    rw [create_unavailable hv ha]
    exact ⟨rfl, rfl, rfl, rfl⟩

/-- A registered device with status `online` that has never written a
heartbeat. -/
def devOnlineNoHeartbeat : DeviceDoc := { status := some "online" }

/-- A run against `devOnlineNoHeartbeat` (no mailbox events delivered). -/
def runNoHeartbeat : RunInput :=
  { memberData := { Name := some "Alice" }, device := some devOnlineNoHeartbeat }

/-- Claim C4, counterexample to the claim as stated: the presence document
exists with status `online` but no `lastHeartbeat` at all — so the
heartbeat is certainly not "within the last 120 seconds" — yet the call
does NOT reject with a device-unavailable error: it writes the enrollment
command and is left waiting (`result = none` with no events). -/
theorem online_device_without_heartbeat_gets_command :
    devOnlineNoHeartbeat.last_seen = none ∧
    devOnlineNoHeartbeat.status = some "online" ∧
    (checkDeviceStatus runNoHeartbeat.device runNoHeartbeat.nowMs).available
      = true ∧
    (createMemberAndStartEnrollment runNoHeartbeat).commandWrites =
      [mkEnrollmentCommand runNoHeartbeat.tempId runNoHeartbeat.memberData
        runNoHeartbeat.nowMs] ∧
    (createMemberAndStartEnrollment runNoHeartbeat).result = none := by
  decide

/-- A device whose last heartbeat is 300 s older than now. -/
def runStaleDevice : RunInput :=
  { memberData := { Name := some "Alice" }
    device := some { status := some "online", last_seen := some 0 }
    nowMs := 300000 }

/-- Witness for C4 (amended) at a device 300 s stale. -/
theorem unavailable_device_rejects_without_write_witness :
    validateMemberData runStaleDevice.memberData = none ∧
    (checkDeviceStatus runStaleDevice.device runStaleDevice.nowMs).available
      = false ∧
    ((createMemberAndStartEnrollment runStaleDevice).result =
        some (.err (.deviceUnavailable
          (checkDeviceStatus runStaleDevice.device runStaleDevice.nowMs).reason)) ∧
      (createMemberAndStartEnrollment runStaleDevice).commandWrites = [] ∧
      (createMemberAndStartEnrollment runStaleDevice).memberWrites = [] ∧
      (createMemberAndStartEnrollment runStaleDevice).observed = []) :=
  ⟨by decide, by decide,
    (unavailable_device_rejects_without_write runStaleDevice).2
      (by decide) (by decide)⟩

/-- Claim C5 (amended: "fingerprintId present" must be read as present AND
non-zero — a present `fingerprintId` of `0` is falsy in JavaScript and does
not persist, see the counterexample).  When the wait observes a matching
update with status `completed` and `fingerprintId = fp ≠ 0` (after any
number of non-settling deliveries), the call persists the member document
keyed by the decimal string of `fp`, stores `fp` itself as the integer
`fingerprintId` field, and resolves with a success result whose `memberId`
equals the same decimal string. -/
theorem matching_completed_persists_by_fingerprint_key
    (i : RunInput) (pre : List Event) (d : CommandDoc) (fp : Int)
    (hv : validateMemberData i.memberData = none)
    (ha : (checkDeviceStatus i.device i.nowMs).available = true)
    (hev : i.events = pre ++ [Event.snapshot (some d)])
    (hpre : ∀ e ∈ pre, stepEvent i.tempId e = none)
    (h1 : d.tempId = some i.tempId) (h2 : d.status = some "completed")
    (h3 : d.fingerprintId = some fp) (h4 : fp ≠ 0) :
    (createMemberAndStartEnrollment i).memberWrites =
      [(Int.repr fp,
        { Name := i.memberData.Name
          Age := i.memberData.Age
          Phone_Number := i.memberData.Phone_Number
          gymMemberId := jsOrStr i.memberData.gymMemberId
            (generateGymMemberId i.genIdFails i.memberSnapshotSize i.fallbackTs)
          fingerprintId := fp
          id := Int.repr fp
          enrolledBy := i.deviceId })] ∧
    (createMemberAndStartEnrollment i).result = some (.ok
      { fingerprintId := fp
        memberId := Int.repr fp
        gymMemberId := jsOrStr i.memberData.gymMemberId
          (generateGymMemberId i.genIdFails i.memberSnapshotSize i.fallbackTs)
        memberName := d.memberName }) := by
  have htruthy : jsTruthyInt d.fingerprintId = true := by
    simp [h3, jsTruthyInt, h4]
  have hstep : handleSnapshot i.tempId d = some (.resolved
      { fingerprintId := d.fingerprintId.getD 0
        memberName := d.memberName
        message := jsOrStr d.message "Enrollment completed successfully" }) :=
    handleSnapshot_of_completed h1 h2 htruthy
  have hrw : (runWait i.tempId i.events).1 = some (.resolved
      { fingerprintId := d.fingerprintId.getD 0
        memberName := d.memberName
        message := jsOrStr d.message "Enrollment completed successfully" }) := by
    rw [hev, runWait_append_pending _ _ hpre]
    simp [runWait, stepEvent, hstep]
  rw [create_gates hv ha, finishRun_resolved i _ _ hrw]
  rw [h3]
  exact ⟨rfl, rfl⟩

/-- A matching `completed` update assigning fingerprint id 7. -/
def docCompleted7 : CommandDoc :=
  { tempId := some "temp_0_x", status := some "completed",
    fingerprintId := some 7 }

/-- A run that observes `docCompleted7` and succeeds. -/
def runCompleted7 : RunInput :=
  { memberData := { Name := some "Alice" }
    device := some { status := some "online", last_seen := some 0 }
    events := [.snapshot (some docCompleted7)] }

/-- Witness for C5 (amended) at the concrete successful run
`runCompleted7`. -/
theorem matching_completed_persists_by_fingerprint_key_witness :
    validateMemberData runCompleted7.memberData = none ∧
    (checkDeviceStatus runCompleted7.device runCompleted7.nowMs).available
      = true ∧
    docCompleted7.tempId = some runCompleted7.tempId ∧
    docCompleted7.status = some "completed" ∧
    docCompleted7.fingerprintId = some 7 ∧
    ((createMemberAndStartEnrollment runCompleted7).memberWrites =
      [(Int.repr 7,
        { Name := runCompleted7.memberData.Name
          Age := runCompleted7.memberData.Age
          Phone_Number := runCompleted7.memberData.Phone_Number
          gymMemberId := jsOrStr runCompleted7.memberData.gymMemberId
            (generateGymMemberId runCompleted7.genIdFails
              runCompleted7.memberSnapshotSize runCompleted7.fallbackTs)
          fingerprintId := 7
          id := Int.repr 7
          enrolledBy := runCompleted7.deviceId })] ∧
    (createMemberAndStartEnrollment runCompleted7).result = some (.ok
      { fingerprintId := 7
        memberId := Int.repr 7
        gymMemberId := jsOrStr runCompleted7.memberData.gymMemberId
          (generateGymMemberId runCompleted7.genIdFails
            runCompleted7.memberSnapshotSize runCompleted7.fallbackTs)
        memberName := docCompleted7.memberName })) :=
  ⟨by decide, by decide, rfl, rfl, rfl,
    matching_completed_persists_by_fingerprint_key runCompleted7 [] docCompleted7 7
      (by decide) (by decide) rfl (by simp) rfl rfl rfl (by decide)⟩

/-- A run that observes a matching `completed` update whose `fingerprintId`
is present but `0`, and nothing else. -/
def runZeroFpOnly : RunInput :=
  { memberData := { Name := some "Alice" }
    device := some { status := some "online", last_seen := some 0 }
    events := [.snapshot (some docZeroFingerprint)] }

/-- Claim C5, counterexample to the claim as stated: on a matching update
with status `completed` and `fingerprintId` PRESENT (value `0`), the call
neither persists a member document nor resolves — the promise is still
pending after the update, because `0` is falsy in
`data.status === "completed" && data.fingerprintId`. -/
theorem present_zero_fingerprint_neither_persists_nor_resolves :
    docZeroFingerprint.tempId = some runZeroFpOnly.tempId ∧
    docZeroFingerprint.status = some "completed" ∧
    docZeroFingerprint.fingerprintId = some 0 ∧
    (createMemberAndStartEnrollment runZeroFpOnly).memberWrites = [] ∧
    (createMemberAndStartEnrollment runZeroFpOnly).result = none := by
  decide

/-- Claim C6 (confirmed): if nothing the listener reacts to arrives — no
update with the attempt's correlation id and a terminal status, and no
listener error — before the 180 000 ms timer (armed at command issuance)
fires, the call rejects with the timeout error, the timeout path closes its
subscription, and the attempt's only mailbox write remains the initial
`pending` command: the command document is never touched again by this
attempt. -/
theorem timeout_rejects_and_mailbox_untouched (i : RunInput) (pre : List Event)
    (hv : validateMemberData i.memberData = none)
    (ha : (checkDeviceStatus i.device i.nowMs).available = true)
    (hev : i.events = pre ++ [Event.timeoutFire])
    (hpre : ∀ e ∈ pre, stepEvent i.tempId e = none) :
    (createMemberAndStartEnrollment i).result = some (.err .timeout) ∧
    (createMemberAndStartEnrollment i).commandWrites =
      [mkEnrollmentCommand i.tempId i.memberData i.nowMs] ∧
    (createMemberAndStartEnrollment i).memberWrites = [] ∧
    subscriptionClosed .timedOut = true ∧
    enrollmentTimeoutMs = 180 * 1000 := by
  have hrw : (runWait i.tempId i.events).1 = some .timedOut := by
    rw [hev, runWait_append_pending _ _ hpre]
    simp [runWait, stepEvent]
  rw [create_gates hv ha]
  refine ⟨?_, finishRun_commandWrites i _,
    finishRun_memberWrites_of_not_resolved i _ (by simp [hrw]), rfl, rfl⟩
  unfold finishRun
  rw [hrw]

/-- A run whose only event is the timer firing. -/
def runOnlyTimeout : RunInput :=
  { memberData := { Name := some "Alice" }
    device := some { status := some "online", last_seen := some 0 }
    events := [.timeoutFire] }

/-- Witness for C6 at the concrete run `runOnlyTimeout`. -/
theorem timeout_rejects_and_mailbox_untouched_witness :
    validateMemberData runOnlyTimeout.memberData = none ∧
    (checkDeviceStatus runOnlyTimeout.device runOnlyTimeout.nowMs).available
      = true ∧
    ((createMemberAndStartEnrollment runOnlyTimeout).result =
        some (.err .timeout) ∧
      (createMemberAndStartEnrollment runOnlyTimeout).commandWrites =
        [mkEnrollmentCommand runOnlyTimeout.tempId runOnlyTimeout.memberData
          runOnlyTimeout.nowMs] ∧
      (createMemberAndStartEnrollment runOnlyTimeout).memberWrites = [] ∧
      subscriptionClosed .timedOut = true ∧
      enrollmentTimeoutMs = 180 * 1000) :=
  ⟨by decide, by decide,
    timeout_rejects_and_mailbox_untouched runOnlyTimeout []
      (by decide) (by decide) rfl (by simp)⟩

/-- Claim C7 (amended: a SUPPLIED `Age` of `0` — outside `[1,120]` — does
NOT reject, because `memberData.Age && ...` skips the range test for the
falsy value `0`; see the counterexample).  `validateMemberData` passes
exactly when the name is present with a non-empty trim and an untrimmed
length in `[2,50]`, any supplied age is `0` or within `[1,120]`, and any
supplied phone number is empty or built only from digits, whitespace and
`- + ( )`; and whenever it fails, the call rejects with that validation
message for EVERY device state and event list — so before consulting the
device and before writing any command document. -/
theorem validateMemberData_spec (md : MemberData) :
    (validateMemberData md = none ↔
      (∃ s, md.Name = some s ∧ jsTrim s ≠ "" ∧ 2 ≤ s.length ∧ s.length ≤ 50) ∧
      (∀ a, md.Age = some a → a = 0 ∨ (1 ≤ a ∧ a ≤ 120)) ∧
      (∀ p, md.Phone_Number = some p → p = "" ∨ p.data.all isPhoneChar = true)) ∧
    (∀ msg, validateMemberData md = some msg →
      ∀ i : RunInput, i.memberData = md →
        (createMemberAndStartEnrollment i).result =
          some (.err (.validation msg)) ∧
        (createMemberAndStartEnrollment i).commandWrites = [] ∧
        (createMemberAndStartEnrollment i).memberWrites = [] ∧
        (createMemberAndStartEnrollment i).observed = []) := by
  constructor
  · cases hn : md.Name with
    | none => simp [validateMemberData, hn]
    | some name =>
      simp only [validateMemberData, hn, Option.some.injEq]
      constructor
      · intro h
        split_ifs at h with h1 h2 h3 h4 h5
        refine ⟨⟨name, rfl, ?_, by omega, by omega⟩, ?_, ?_⟩
        · intro htr
          exact h1 (Or.inr htr)
        · intro a ha
          rw [ha] at h4
          simp only [jsTruthyInt, Option.getD_some, bne_iff_ne, ne_eq] at h4
          omega
        · intro p hp
          rw [hp] at h5
          simp only [jsTruthyStr, Option.getD_some, bne_iff_ne, ne_eq] at h5
          by_cases hpe : p = ""
          · exact Or.inl hpe
          · refine Or.inr ?_
            by_cases hall : p.data.all isPhoneChar = true
            · exact hall
            · exact absurd ⟨hpe, fun hx => hall hx⟩ h5
      · rintro ⟨⟨s, hs, htrim, hl2, hl5⟩, hage, hphone⟩
        obtain rfl : name = s := hs
        rw [if_neg, if_neg (by omega), if_neg (by omega), if_neg, if_neg]
        · cases hP : md.Phone_Number with
          | none => simp [jsTruthyStr, hP]
          | some p =>
            rcases hphone p hP with rfl | hall
            · simp [jsTruthyStr, hP]
            · simp [jsTruthyStr, hP, hall]
        · cases hA : md.Age with
          | none => simp [jsTruthyInt, hA]
          | some a =>
            have := hage a hA
            simp only [jsTruthyInt, hA, Option.getD_some, bne_iff_ne, ne_eq]
            omega
        · rintro (rfl | htr)
          · exact htrim rfl
          · exact htrim htr
  · intro msg hmsg i hi
    rw [create_validation_fails (by rw [hi]; exact hmsg)]
    exact ⟨rfl, rfl, rfl, rfl⟩

/-- A run whose member data carries a supplied `Age` of `0` (outside
`[1,120]`) and no presence document for the device. -/
def runAgeZero : RunInput :=
  { memberData := { Name := some "Bob", Age := some 0 }, device := none }

/-- Claim C7, counterexample to the claim as stated: `Age = 0` is supplied
and outside `[1,120]`, yet validation raises no error — the run proceeds
past validation all the way to the device check (and fails there only
because this run's device is unregistered), instead of rejecting with a
validation error. -/
theorem age_zero_skips_validation :
    runAgeZero.memberData.Age = some 0 ∧
    validateMemberData runAgeZero.memberData = none ∧
    (createMemberAndStartEnrollment runAgeZero).result =
      some (.err (.deviceUnavailable
        "Device not found - check device ID and ensure ESP32 is registered")) := by
  decide

/-- A run with a one-character name, failing validation. -/
def runShortName : RunInput :=
  { memberData := { Name := some "B" }
    device := some { status := some "online", last_seen := some 0 }
    events := [.timeoutFire] }

/-- Witness for C7 (amended): the one-character name rejects with the
validation message, with no command write and no observed events, even
though the device is online and events were queued. -/
theorem validateMemberData_spec_witness :
    validateMemberData runShortName.memberData =
      some "Name must be at least 2 characters long" ∧
    ((createMemberAndStartEnrollment runShortName).result =
        some (.err (.validation "Name must be at least 2 characters long")) ∧
      (createMemberAndStartEnrollment runShortName).commandWrites = [] ∧
      (createMemberAndStartEnrollment runShortName).memberWrites = [] ∧
      (createMemberAndStartEnrollment runShortName).observed = []) :=
  ⟨by decide,
    (validateMemberData_spec runShortName.memberData).2 _ (by decide)
      runShortName rfl⟩

/-- Claim C8 (confirmed): `cancelEnrollment` merges `status = "cancelled"`
into the mailbox document without touching its correlation id, and an
in-flight attempt whose correlation id matches the mailbox's observes the
update, clears its timeout, closes its subscription, and rejects with the
user-cancelled error (writing no member document). -/
theorem cancelEnrollment_preserves_tempId_and_cancels (now : Int) (d : CommandDoc) :
    (cancelEnrollment now d).tempId = d.tempId ∧
    (cancelEnrollment now d).status = some "cancelled" ∧
    (∀ (i : RunInput) (pre : List Event),
      validateMemberData i.memberData = none →
      (checkDeviceStatus i.device i.nowMs).available = true →
      d.tempId = some i.tempId →
      i.events = pre ++ [Event.snapshot (some (cancelEnrollment now d))] →
      (∀ e ∈ pre, stepEvent i.tempId e = none) →
      handleSnapshot i.tempId (cancelEnrollment now d) = some .cancelledByUser ∧
      timeoutCleared .cancelledByUser = true ∧
      subscriptionClosed .cancelledByUser = true ∧
      (createMemberAndStartEnrollment i).result = some (.err .userCancelled) ∧
      (createMemberAndStartEnrollment i).memberWrites = []) := by
  refine ⟨rfl, rfl, ?_⟩
  intro i pre hv ha htid hev hpre
  have hh : handleSnapshot i.tempId (cancelEnrollment now d) =
      some .cancelledByUser := by
    unfold handleSnapshot cancelEnrollment
    rw [if_pos htid, if_neg (by simp), if_neg (by simp), if_neg (by simp),
      if_pos rfl]
  have hrw : (runWait i.tempId i.events).1 = some .cancelledByUser := by
    rw [hev, runWait_append_pending _ _ hpre]
    simp only [runWait, stepEvent, hh]
  rw [create_gates hv ha]
  refine ⟨hh, rfl, rfl, ?_, finishRun_memberWrites_of_not_resolved i _
    (by simp [hrw])⟩
  unfold finishRun
  rw [hrw]

/-- The pending command of the attempt that will be cancelled. -/
def pendingCmd : CommandDoc :=
  mkEnrollmentCommand "temp_0_x" { Name := some "Alice" } 0

/-- A run whose only event is observing its own command after
`cancelEnrollment` wrote to it. -/
def runCancelled : RunInput :=
  { memberData := { Name := some "Alice" }
    device := some { status := some "online", last_seen := some 0 }
    events := [.snapshot (some (cancelEnrollment 5 pendingCmd))] }

/-- Witness for C8 at the concrete cancelled run `runCancelled`. -/
theorem cancelEnrollment_preserves_tempId_and_cancels_witness :
    validateMemberData runCancelled.memberData = none ∧
    (checkDeviceStatus runCancelled.device runCancelled.nowMs).available
      = true ∧
    pendingCmd.tempId = some runCancelled.tempId ∧
    ((cancelEnrollment 5 pendingCmd).tempId = pendingCmd.tempId ∧
      (cancelEnrollment 5 pendingCmd).status = some "cancelled") ∧
    (handleSnapshot runCancelled.tempId (cancelEnrollment 5 pendingCmd) =
        some .cancelledByUser ∧
      timeoutCleared .cancelledByUser = true ∧
      subscriptionClosed .cancelledByUser = true ∧
      (createMemberAndStartEnrollment runCancelled).result =
        some (.err .userCancelled) ∧
      (createMemberAndStartEnrollment runCancelled).memberWrites = []) :=
  ⟨by decide, by decide, rfl,
    ⟨(cancelEnrollment_preserves_tempId_and_cancels 5 pendingCmd).1,
      (cancelEnrollment_preserves_tempId_and_cancels 5 pendingCmd).2.1⟩,
    (cancelEnrollment_preserves_tempId_and_cancels 5 pendingCmd).2.2
      runCancelled [] (by decide) (by decide) rfl rfl (by simp)⟩

/-- Claim C9 (amended: this holds only for ids produced by
`generateGymMemberId` — when the caller supplies `gymMemberId` it is passed
through unchecked and CAN equal the fingerprint key, see the
counterexample).  Every generated gym member id starts with `FN`, while the
member record's key is the decimal string of the device-assigned integer,
which starts with a digit or a minus sign — so a generated id never equals
the fingerprint key. -/
theorem generated_gymMemberId_never_equals_fingerprint_key
    (gf : Bool) (sz ts : Nat) (fp : Int) :
    generateGymMemberId gf sz ts ≠ Int.repr fp := by
  intro h
  obtain ⟨rest, hg⟩ := generatedId_head gf sz ts
  obtain ⟨c, cs, hi, hc⟩ := intRepr_head fp
  rw [h, hi] at hg
  have hcF : c = 'F' := by injection hg
  rcases hc with hdig | hdash
  · rw [hcF] at hdig
    exact absurd hdig (by decide)
  · rw [hcF] at hdash
    exact absurd hdash (by decide)

/-- A run whose caller supplies `gymMemberId = "7"` while the device assigns
fingerprint id 7. -/
def runCallerSuppliedId : RunInput :=
  { memberData := { Name := some "Alice", gymMemberId := some "7" }
    device := some { status := some "online", last_seen := some 0 }
    events := [.snapshot (some docCompleted7)] }

/-- Claim C9, counterexample to the claim as stated: when the caller
supplies `gymMemberId` it is taken verbatim
(`memberData.gymMemberId || generateGymMemberId(...)`), so the persisted
member record can carry a `gymMemberId` equal to the string form of its
`fingerprintId`. -/
theorem caller_supplied_gymMemberId_collides :
    runCallerSuppliedId.memberData.gymMemberId = some "7" ∧
    ∃ w ∈ (createMemberAndStartEnrollment runCallerSuppliedId).memberWrites,
      w.2.fingerprintId = 7 ∧ w.2.gymMemberId = Int.repr w.2.fingerprintId := by
  decide

/-- Claim C10 (confirmed): a presence document that exists with status
`online` but no `last_seen` timestamp at all is reported available (the
staleness test `now - lastSeen > 120000` is false when `lastSeen` is
absent, since `NaN > 120000` is false), so the call proceeds to write an
enrollment command to a device that has never reported a heartbeat. -/
theorem online_no_heartbeat_available_and_command_written
    (i : RunInput) (dev : DeviceDoc)
    (hD : i.device = some dev) (h1 : dev.last_seen = none)
    (h2 : dev.status = some "online")
    (hv : validateMemberData i.memberData = none) :
    (checkDeviceStatus i.device i.nowMs).available = true ∧
    (createMemberAndStartEnrollment i).commandWrites =
      [mkEnrollmentCommand i.tempId i.memberData i.nowMs] := by
  have ha : (checkDeviceStatus i.device i.nowMs).available = true := by
    rw [hD]
    simp [checkDeviceStatus, h1, h2]
  exact ⟨ha, by rw [create_gates hv ha]; exact finishRun_commandWrites i _⟩

/-- Witness for C10 at the concrete run `runNoHeartbeat`. -/
theorem online_no_heartbeat_available_and_command_written_witness :
    runNoHeartbeat.device = some devOnlineNoHeartbeat ∧
    devOnlineNoHeartbeat.last_seen = none ∧
    devOnlineNoHeartbeat.status = some "online" ∧
    validateMemberData runNoHeartbeat.memberData = none ∧
    ((checkDeviceStatus runNoHeartbeat.device runNoHeartbeat.nowMs).available
        = true ∧
      (createMemberAndStartEnrollment runNoHeartbeat).commandWrites =
        [mkEnrollmentCommand runNoHeartbeat.tempId runNoHeartbeat.memberData
          runNoHeartbeat.nowMs]) :=
  ⟨rfl, rfl, rfl, by decide,
    online_no_heartbeat_available_and_command_written runNoHeartbeat
      devOnlineNoHeartbeat rfl rfl rfl (by decide)⟩
